import Mathlib

/-!
# Verification of the libsignal-protocol wrapper layer

A shallow embedding of the context/store bridging layer of the
`libsignal-protocol` Rust crate.  Pure control flow of the wrapper functions
(`src/context.rs`, `src/keys/public.rs`, `src/session_builder.rs`,
`src/address.rs`) is translated directly; the behaviour of the native engine
behind a call is supplied as an explicit input (the integer code it returns
and the pointer it writes), so each theorem quantifies over every possible
native outcome.  Parts of the crate that are not present in the source tree
(`errors.rs`, the `keys` list module) are modelled from the specification and
marked as such in their doc comments.
-/

/-- Modelled from the spec: the recognized enumerated kinds of engine internal
errors (`errors.rs` is not part of the available sources).  The spec only
requires a fixed finite set of known engine codes, each mapped to one kind. -/
inductive InternalError where
  | noMemory
  | invalidArgument
  | unknown
  | duplicateMessage
  | invalidKey
  | invalidKeyId
  | invalidMac
  | invalidMessage
  | legacyMessage
  | noSession
  | untrustedIdentity
deriving DecidableEq

/-- The observable error value handed to a caller (the `failure::Error` at the
wrapper boundary).  `internal` wraps a recognized engine kind, `unknownCode`
carries an unrecognized raw engine code, `message` is an error constructed by
the wrapper itself from a string (`failure::err_msg` / `format_err!`), and
`systemTime` is the error produced by `SystemTime::duration_since` for a
pre-epoch timestamp. -/
inductive SignalError where
  | internal (e : InternalError)
  | unknownCode (c : Int)
  | message (s : String)
  | systemTime
deriving DecidableEq

/-- Whether an error belongs to the engine internal-error taxonomy. -/
def SignalError.isInternal : SignalError → Bool
  | .internal _ => true
  | _ => false

/-- The table of known engine codes and their recognized kinds; the concrete
values mirror the native engine's error-code space (all recognized codes are
negative). -/
def knownCodes : List (Int × InternalError) :=
  [(-3, .noMemory), (-6, .invalidArgument), (-1000, .unknown),
   (-1001, .duplicateMessage), (-1002, .invalidKey), (-1003, .invalidKeyId),
   (-1004, .invalidMac), (-1005, .invalidMessage), (-1007, .legacyMessage),
   (-1008, .noSession), (-1009, .untrustedIdentity)]

/-- Modelled from the spec: `InternalError::from_error_code` in the missing
`errors.rs`: a known non-zero engine code maps to its recognized kind, any
other code to `none`. -/
def fromErrorCode (c : Int) : Option InternalError :=
  (knownCodes.find? (fun p => p.1 == c)).map (fun p => p.2)

/-- The error a non-zero engine code is converted to: its recognized
internal-error kind when the code is known, otherwise the unknown-code
variant carrying the raw value. -/
def errOf (c : Int) : SignalError :=
  match fromErrorCode c with
  | some e => .internal e
  | none => .unknownCode c

/-- Modelled from the spec: `FromInternalErrorCode::into_result` in the
missing `errors.rs`: code `0` is success, any non-zero code becomes the
error described by `errOf`. -/
def intoResult (c : Int) : Except SignalError Unit :=
  if c = 0 then .ok () else .error (errOf c)

/-! ## `PublicKey::verify_signature` (src/keys/public.rs) -/

/-- Embedding of the dispatch in `PublicKey::verify_signature`
(src/keys/public.rs:49-73) on the code returned by the native
`curve_verify_signature` call: `1` is success, `0` yields the constructed
"Invalid signature" error, a recognized code yields its internal-error kind
and any other code yields a constructed message carrying the raw code. -/
def verify_signature (result : Int) : Except SignalError Unit :=
  if result = 1 then .ok ()
  else if result = 0 then .error (.message "Invalid signature")
  else
    match fromErrorCode result with
    | some err => .error (.internal err)
    | none => .error (.message ("Unknown error code: " ++ toString result))

/-! ## `Context::generate_signed_pre_key` (src/context.rs:123-150) -/

/-- A native handle; pointers are modelled as their (abstract) address. -/
structure SessionSignedPreKey where
  rawAddr : Nat
deriving DecidableEq

/-- Outcome of the native `signal_protocol_key_helper_generate_signed_pre_key`
call: the integer code it returns and the pointer it wrote into `raw`
(`none` models a pointer left null). -/
structure NativeGenOutcome where
  code : Int
  written : Option SessionSignedPreKey
deriving DecidableEq

/-- Embedding of `timestamp.duration_since(SystemTime::UNIX_EPOCH)?` followed
by `Duration::as_secs` (src/context.rs:131,137).  The timestamp is the exact
number of nanoseconds since the Unix epoch (negative when earlier);
`duration_since` fails for a pre-epoch timestamp and `as_secs` truncates the
duration to whole seconds. -/
def timestampToSecs (tNanos : Int) : Except SignalError Nat :=
  if tNanos < 0 then .error .systemTime
  else .ok (tNanos.toNat / 1000000000)

/-- Embedding of the tail of `Context::generate_signed_pre_key`
(src/context.rs:133-149): the native code goes through `into_result`, then a
null result despite success yields the constructed
"Unable to generate a signed pre key" error, and a non-null result is
returned. -/
def afterNativeGen (r : NativeGenOutcome) :
    Except SignalError SessionSignedPreKey :=
  match intoResult r.code with
  | .error e => .error e
  | .ok () =>
    match r.written with
    | none => .error (.message "Unable to generate a signed pre key")
    | some k => .ok k

/-- Embedding of `Context::generate_signed_pre_key` (src/context.rs:123-150).
`native` is the behaviour of the engine call as a function of the whole-second
timestamp it receives across the boundary. -/
def generate_signed_pre_key (tNanos : Int)
    (native : Nat → NativeGenOutcome) :
    Except SignalError SessionSignedPreKey :=
  match timestampToSecs tNanos with
  | .error e => .error e
  | .ok secs => afterNativeGen (native secs)

/-! ## `Context::new_store_context` (src/context.rs:152-203) -/

/-- A native store-context handle. -/
structure StoreContext where
  rawAddr : Nat
deriving DecidableEq

/-- The integer codes returned by the five native steps of
`Context::new_store_context`: store-context creation followed by registration
of the pre-key, signed-pre-key, session and identity-key vtables, plus the
handle the creation step wrote. -/
structure StoreCtxNative where
  createCode : Int
  preKeyCode : Int
  signedPreKeyCode : Int
  sessionCode : Int
  identityCode : Int
  createdHandle : StoreContext
deriving DecidableEq

/-- Embedding of `Context::new_store_context` (src/context.rs:152-203): each
of the five native calls is passed through `into_result?`, so the first
failing step aborts construction with its error; only when all five succeed is
the `StoreContext` built and returned. -/
def new_store_context (n : StoreCtxNative) : Except SignalError StoreContext :=
  match intoResult n.createCode with
  | .error e => .error e
  | .ok () =>
    match intoResult n.preKeyCode with
    | .error e => .error e
    | .ok () =>
      match intoResult n.signedPreKeyCode with
      | .error e => .error e
      | .ok () =>
        match intoResult n.sessionCode with
        | .error e => .error e
        | .ok () =>
          match intoResult n.identityCode with
          | .error e => .error e
          | .ok () => .ok n.createdHandle

/-! ## `SessionBuilder` (src/session_builder.rs) -/

/-- The fields of a `SessionBuilder`: the raw pointer written by the native
create call (`none` models a pointer left null) and the shared references to
the store context and context it keeps alive. -/
structure SessionBuilder where
  raw : Option Nat
  storeCtxRef : Nat
  ctxRef : Nat
deriving DecidableEq

/-- Embedding of `SessionBuilder::new` (src/session_builder.rs:16-37): the
integer code returned by `session_builder_create` is discarded and the struct
is built unconditionally from whatever pointer the native call wrote. -/
def SessionBuilder.new (createCode : Int) (written : Option Nat)
    (storeCtx ctx : Nat) : SessionBuilder :=
  let _ := createCode
  { raw := written, storeCtxRef := storeCtx, ctxRef := ctx }

/-- Embedding of `SessionBuilder::process_pre_key_bundle`
(src/session_builder.rs:39-46): the native call's integer code is discarded by
the trailing semicolon and the method returns unit. -/
def process_pre_key_bundle (nativeCode : Int) : Unit :=
  let _ := nativeCode
  ()

/-! ## `Context::generate_pre_keys` (src/context.rs:104-121)

The wrapper passes `start` and `count` to the native helper and wraps the
returned head pointer in a `PreKeyList`.  Both the native list construction
and the `PreKeyList` iterator live outside the available sources, so they are
modelled from the spec. -/

/-- Modelled from the spec: the singly-linked native list built by
`signal_protocol_key_helper_generate_pre_keys` holds `count` sequential
prekey records with ids `start, start+1, ..., start+count-1`, in that order.
A node is represented by its record id. -/
def generate_pre_keys (start count : Nat) : List Nat :=
  match count with
  | 0 => []
  | n + 1 => start :: generate_pre_keys (start + 1) n

/-- Modelled from the spec: one iteration step over the native list walked
exactly once — yield the head record and move to the next node, or yield
nothing when the list is exhausted. -/
def pkNext : List Nat → Option (Nat × List Nat)
  | [] => none
  | id :: rest => some (id, rest)

/-- Modelled from the spec: the iterator state after `n` steps of the single
traversal. -/
def pkAdvance : Nat → List Nat → List Nat
  | 0, s => s
  | n + 1, s =>
    match pkNext s with
    | none => s
    | some (_, s2) => pkAdvance n s2

/-! ## `PublicKey` ordering (src/keys/public.rs:76-107) -/

/-- A public key, identified by the content of its encoded point. -/
structure PublicKey where
  content : List Nat
deriving DecidableEq

/-- Modelled from the spec: the native `ec_public_key_compare` compares the
content of the two keys, returning a negative, zero or positive code for
less, equal and greater content. -/
def byteCompare : List Nat → List Nat → Int
  | [], [] => 0
  | [], _ :: _ => -1
  | _ :: _, [] => 1
  | a :: as, b :: bs =>
    if a < b then -1 else if b < a then 1 else byteCompare as bs

/-- Modelled from the spec: see `byteCompare`. -/
def ec_public_key_compare (a b : PublicKey) : Int :=
  byteCompare a.content b.content

/-- Embedding of `Ord::cmp` for `PublicKey` (src/keys/public.rs:76-93): a
negative native code is `Less`, a positive one `Greater`, zero `Equal`. -/
def PublicKey.cmp (a b : PublicKey) : Ordering :=
  if ec_public_key_compare a b < 0 then .lt
  else if ec_public_key_compare a b > 0 then .gt
  else .eq

/-- Embedding of `PartialOrd::partial_cmp` for `PublicKey`
(src/keys/public.rs:103-107): always `Some` of the total comparison. -/
def PublicKey.partialCmp (a b : PublicKey) : Option Ordering :=
  some (a.cmp b)

/-- Embedding of `PartialEq::eq` for `PublicKey` (src/keys/public.rs:95-99):
two keys are equal when the comparison returns `Equal`. -/
def PublicKey.beq (a b : PublicKey) : Bool :=
  a.cmp b == Ordering.eq

/-! ## `Address` (src/address.rs) -/

/-- Whether a byte continues a multi-byte UTF-8 sequence (`10xxxxxx`). -/
def utf8Cont (b : Nat) : Bool :=
  0x80 ≤ b && b < 0xC0

/-- Modelled from the Rust standard library's UTF-8 validation
(`core::str::from_utf8` rejects overlong encodings, surrogates and code
points above U+10FFFF): whether a byte list is valid UTF-8. -/
def utf8Valid : List Nat → Bool
  | [] => true
  | b :: rest =>
    if b < 0x80 then utf8Valid rest
    else if b < 0xC2 then false
    else if b < 0xE0 then
      match rest with
      | b1 :: r => utf8Cont b1 && utf8Valid r
      | [] => false
    else if b < 0xF0 then
      match rest with
      | b1 :: b2 :: r =>
        (if b = 0xE0 then 0xA0 ≤ b1 && b1 < 0xC0
         else if b = 0xED then 0x80 ≤ b1 && b1 < 0xA0
         else utf8Cont b1) && utf8Cont b2 && utf8Valid r
      | _ => false
    else if b < 0xF5 then
      match rest with
      | b1 :: b2 :: b3 :: r =>
        (if b = 0xF0 then 0x90 ≤ b1 && b1 < 0xC0
         else if b = 0xF4 then 0x80 ≤ b1 && b1 < 0x90
         else utf8Cont b1) && utf8Cont b2 && utf8Cont b3 && utf8Valid r
      | _ => false
    else false

/-- A Rust `&str`: a byte sequence that is guaranteed valid UTF-8 by
construction. -/
def RustStr : Type := { bytes : List Nat // utf8Valid bytes = true }

/-- The error value of `std::str::from_utf8`; its payload (position of the
first invalid byte) is not needed by any claim and is left unmodelled. -/
inductive Utf8Error where
  | invalid
deriving DecidableEq

/-- Modelled from the Rust standard library: `std::str::from_utf8` validates
the bytes and on success returns the same bytes viewed as a `&str`
(a zero-copy reinterpretation). -/
def str_from_utf8 (l : List Nat) : Except Utf8Error RustStr :=
  if h : utf8Valid l = true then .ok ⟨l, h⟩ else .error .invalid

/-- The fields of `sys::signal_protocol_address` as stored by `Address`
(src/address.rs:4-21): the borrowed name bytes, the recorded name length and
the device id. -/
structure Address where
  name : List Nat
  name_len : Nat
  device_id : Int
deriving DecidableEq

/-- Embedding of `Address::new` (src/address.rs:10-21): stores the pointer to
the string's bytes, its byte length and the device id. -/
def Address.new (name : RustStr) (device_id : Int) : Address :=
  { name := name.val, name_len := name.val.length, device_id := device_id }

/-- Embedding of `Address::bytes` (src/address.rs:27-34): reads `name_len`
bytes starting at the stored pointer. -/
def Address.bytes (a : Address) : List Nat :=
  a.name.take a.name_len

/-- Embedding of `Address::as_str` (src/address.rs:36-38):
`std::str::from_utf8` over `bytes()`. -/
def Address.as_str (a : Address) : Except Utf8Error RustStr :=
  str_from_utf8 a.bytes

/-- Embedding of `Address::device_id` (src/address.rs:40). -/
def Address.deviceId (a : Address) : Int :=
  a.device_id

/-! ## Helper lemmas -/

theorem fromErrorCode_neg (c : Int) (e : InternalError)
    (h : fromErrorCode c = some e) : c < 0 := by
  unfold fromErrorCode at h
  cases hf : knownCodes.find? (fun p => p.1 == c) with
  | none =>
    rw [hf] at h
    exact Option.noConfusion h
  | some p =>
    have hmem : p ∈ knownCodes := List.mem_of_find?_eq_some hf
    have hbeq := List.find?_some hf
    have hpc : p.1 = c := by simpa using hbeq
    have hall : ∀ q ∈ knownCodes, q.1 < 0 := by decide
    have := hall p hmem
    omega

theorem intoResult_zero : intoResult 0 = .ok () := rfl

theorem intoResult_of_ne (c : Int) (h : c ≠ 0) :
    intoResult c = .error (errOf c) := by
  unfold intoResult
  rw [if_neg h]

theorem intoResult_ok_iff (c : Int) : intoResult c = .ok () ↔ c = 0 := by
  unfold intoResult
  split_ifs with h
  · simp [h]
  · simp [h]

theorem generate_pre_keys_length (start count : Nat) :
    (generate_pre_keys start count).length = count := by
  induction count generalizing start with
  | zero => rfl
  | succ n ih => simpa [generate_pre_keys] using ih (start + 1)

theorem generate_pre_keys_drop (start count i : Nat) (h : i ≤ count) :
    (generate_pre_keys start count).drop i =
      generate_pre_keys (start + i) (count - i) := by
  induction i generalizing start count with
  | zero => simp
  | succ n ih =>
    match count with
    | 0 => omega
    | m + 1 =>
      have hn : n ≤ m := by omega
      calc (generate_pre_keys start (m + 1)).drop (n + 1)
          = (generate_pre_keys (start + 1) m).drop n := by
            simp [generate_pre_keys]
        _ = generate_pre_keys (start + 1 + n) (m - n) := ih (start + 1) m hn
        _ = generate_pre_keys (start + (n + 1)) (m + 1 - (n + 1)) := by
            congr 1 <;> omega

theorem pkAdvance_eq_drop (n : Nat) (s : List Nat) :
    pkAdvance n s = s.drop n := by
  induction n generalizing s with
  | zero => rfl
  | succ m ih =>
    match s with
    | [] => simp [pkAdvance, pkNext]
    | x :: rest => simp [pkAdvance, pkNext, ih rest]

theorem byteCompare_antisym (a b : List Nat) :
    byteCompare a b = -byteCompare b a := by
  induction a generalizing b with
  | nil => cases b <;> simp [byteCompare]
  | cons x xs ih =>
    cases b with
    | nil => simp [byteCompare]
    | cons y ys =>
      simp only [byteCompare]
      rcases Nat.lt_trichotomy x y with h | h | h
      · rw [if_pos h, if_neg (Nat.lt_asymm h), if_pos h]
      · subst h
        rw [if_neg (lt_irrefl x), if_neg (lt_irrefl x), if_neg (lt_irrefl x),
          if_neg (lt_irrefl x)]
        exact ih ys
      · rw [if_neg (Nat.lt_asymm h), if_pos h, if_pos h]
        rfl

theorem byteCompare_eq_zero_iff (a b : List Nat) :
    byteCompare a b = 0 ↔ a = b := by
  induction a generalizing b with
  | nil => cases b <;> simp [byteCompare]
  | cons x xs ih =>
    cases b with
    | nil => simp [byteCompare]
    | cons y ys =>
      simp only [byteCompare]
      rcases Nat.lt_trichotomy x y with h | h | h
      · rw [if_pos h]
        simp
        omega
      · subst h
        rw [if_neg (lt_irrefl x), if_neg (lt_irrefl x)]
        simp [ih ys]
      · rw [if_neg (Nat.lt_asymm h), if_pos h]
        simp
        omega

theorem byteCompare_neg_trans (a b c : List Nat)
    (hab : byteCompare a b < 0) (hbc : byteCompare b c < 0) :
    byteCompare a c < 0 := by
  induction a generalizing b c with
  | nil =>
    cases c with
    | nil =>
      cases b with
      | nil => simp [byteCompare] at hab
      | cons y ys => simp [byteCompare] at hbc
    | cons z zs => simp [byteCompare]
  | cons x xs ih =>
    cases b with
    | nil => simp [byteCompare] at hab
    | cons y ys =>
      cases c with
      | nil => simp [byteCompare] at hbc
      | cons z zs =>
        simp only [byteCompare] at hab hbc ⊢
        rcases Nat.lt_trichotomy x z with h | h | h
        · rw [if_pos h]
          omega
        · subst h
          rw [if_neg (lt_irrefl x), if_neg (lt_irrefl x)]
          have hxy : ¬ y < x := by
            intro hyx
            rw [if_neg (Nat.lt_asymm hyx), if_pos hyx] at hbc
            omega
          have hyx : ¬ x < y := by
            intro hxy2
            rw [if_neg (Nat.lt_asymm hxy2), if_pos hxy2] at hab
            omega
          rw [if_neg hyx, if_neg hxy] at hab
          rw [if_neg hxy, if_neg hyx] at hbc
          exact ih ys zs hab hbc
        · exfalso
          rcases Nat.lt_trichotomy x y with hxy | hxy | hxy
          · rcases Nat.lt_trichotomy y z with hyz | hyz | hyz
            · exact absurd (Nat.lt_trans hxy hyz) (Nat.lt_asymm h)
            · subst hyz
              exact absurd hxy (Nat.lt_asymm h)
            · rw [if_neg (Nat.lt_asymm hyz), if_pos hyz] at hbc
              omega
          · subst hxy
            rcases Nat.lt_trichotomy x z with hyz | hyz | hyz
            · exact absurd hyz (Nat.lt_asymm h)
            · omega
            · rw [if_neg (Nat.lt_asymm hyz), if_pos hyz] at hbc
              omega
          · rw [if_neg (Nat.lt_asymm hxy), if_pos hxy] at hab
            omega

theorem PublicKey.cmp_lt_iff (a b : PublicKey) :
    a.cmp b = .lt ↔ ec_public_key_compare a b < 0 := by
  unfold PublicKey.cmp
  split_ifs with h1 h2 <;> simp_all

theorem PublicKey.cmp_gt_iff (a b : PublicKey) :
    a.cmp b = .gt ↔ ec_public_key_compare a b > 0 := by
  unfold PublicKey.cmp
  split_ifs with h1 h2 <;> simp_all
  omega

theorem PublicKey.cmp_eq_iff (a b : PublicKey) :
    a.cmp b = .eq ↔ ec_public_key_compare a b = 0 := by
  unfold PublicKey.cmp
  split_ifs with h1 h2 <;> simp_all <;> omega

/-! ## Claim theorems -/

/-- Claim C1, evaluated at the failing input: when the native
`session_builder_process_pre_key_bundle` call reports the engine error code
`-3`, `SessionBuilder::process_pre_key_bundle` returns the same unit value as
on success code `0` — the integer code is discarded rather than surfaced, so
the caller cannot observe the failure at this interface. -/
theorem C1_process_pre_key_bundle_swallows_failure :
    process_pre_key_bundle (-3) = process_pre_key_bundle 0
    ∧ process_pre_key_bundle (-3) = () :=
  ⟨rfl, rfl⟩

/-- Claim C2: `generate_pre_keys start count` produces exactly `count`
records; the `i`-th step of the single traversal yields id `start + i`
(so the ids come out as `start, start+1, ..., start+count-1` in order); and
after `count` steps the iterator is exhausted and yields nothing more. -/
theorem C2_generate_pre_keys_sequential (start count : Nat) :
    (generate_pre_keys start count).length = count
    ∧ (∀ i, i < count →
        pkNext (pkAdvance i (generate_pre_keys start count)) =
          some (start + i,
            generate_pre_keys (start + i + 1) (count - i - 1)))
    ∧ pkNext (pkAdvance count (generate_pre_keys start count)) = none := by
  refine ⟨generate_pre_keys_length start count, ?_, ?_⟩
  · intro i hi
    rw [pkAdvance_eq_drop, generate_pre_keys_drop start count i (le_of_lt hi)]
    obtain ⟨m, hm⟩ : ∃ m, count - i = m + 1 := ⟨count - i - 1, by omega⟩
    rw [hm]
    have hm2 : m = count - i - 1 := by omega
    simp [generate_pre_keys, pkNext, hm2]
  · rw [pkAdvance_eq_drop, generate_pre_keys_drop start count count le_rfl]
    simp [generate_pre_keys, pkNext]

/-- Claim C2 witness: `generate_pre_keys 100 5` has exactly 5 records, its
third traversal step yields id 102, and the iterator is exhausted after the
5-step traversal. -/
theorem C2_generate_pre_keys_sequential_witness :
    (generate_pre_keys 100 5).length = 5
    ∧ pkNext (pkAdvance 2 (generate_pre_keys 100 5)) =
        some (102, generate_pre_keys 103 2)
    ∧ pkNext (pkAdvance 5 (generate_pre_keys 100 5)) = none :=
  ⟨(C2_generate_pre_keys_sequential 100 5).1,
    (C2_generate_pre_keys_sequential 100 5).2.1 2 (by decide),
    (C2_generate_pre_keys_sequential 100 5).2.2⟩

/-- Claim C3: `verify_signature` succeeds exactly on native code `1`; code
`0` yields the distinct, expected "Invalid signature" outcome, which is not
an internal-error kind; a recognized code — necessarily negative — maps to
its internal-error kind; and any other code yields the unknown-code message
carrying the raw value. -/
theorem C3_verify_signature_taxonomy (result : Int) :
    (verify_signature result = .ok () ↔ result = 1)
    ∧ (verify_signature 0 = .error (.message "Invalid signature")
        ∧ (SignalError.message "Invalid signature").isInternal = false)
    ∧ (∀ e, fromErrorCode result = some e →
        result < 0 ∧ verify_signature result = .error (.internal e))
    ∧ (result ≠ 1 → result ≠ 0 → fromErrorCode result = none →
        verify_signature result =
          .error (.message ("Unknown error code: " ++ toString result))) := by
  refine ⟨?_, ⟨rfl, rfl⟩, ?_, ?_⟩
  · unfold verify_signature
    split_ifs with h1 h0
    · simp [h1]
    · simp [h1]
    · cases hfe : fromErrorCode result <;> simp [hfe, h1]
  · intro e hfe
    have hneg := fromErrorCode_neg result e hfe
    refine ⟨hneg, ?_⟩
    unfold verify_signature
    rw [if_neg (by omega), if_neg (by omega), hfe]
  · intro h1 h0 hfe
    unfold verify_signature
    rw [if_neg h1, if_neg h0, hfe]

/-- Claim C3 witness: native code `1` verifies, and the recognized engine
code `-1000` is negative and surfaces as its internal-error kind. -/
theorem C3_verify_signature_taxonomy_witness :
    verify_signature 1 = .ok ()
    ∧ ((-1000 : Int) < 0
        ∧ verify_signature (-1000) = .error (.internal .unknown)) :=
  ⟨(C3_verify_signature_taxonomy 1).1.mpr rfl,
    (C3_verify_signature_taxonomy (-1000)).2.2.1 .unknown (by decide)⟩

/-- Claim C4: when the native signed-prekey call reports success (code `0`)
but wrote a null result pointer, `Context::generate_signed_pre_key` returns
the wrapper-constructed "Unable to generate a signed pre key" error, which is
outside the internal-error taxonomy; when it reports success and a non-null
result, the signed prekey is returned. -/
theorem C4_generate_signed_pre_key_null_contract (t : Int)
    (native : Nat → NativeGenOutcome) (ht : 0 ≤ t)
    (hcode : (native (t.toNat / 1000000000)).code = 0) :
    ((native (t.toNat / 1000000000)).written = none →
      generate_signed_pre_key t native =
        .error (.message "Unable to generate a signed pre key")
      ∧ (SignalError.message
          "Unable to generate a signed pre key").isInternal = false)
    ∧ (∀ k, (native (t.toNat / 1000000000)).written = some k →
        generate_signed_pre_key t native = .ok k) := by
  have hts : timestampToSecs t = .ok (t.toNat / 1000000000) := by
    unfold timestampToSecs
    rw [if_neg (by omega)]
  constructor
  · intro hw
    refine ⟨?_, rfl⟩
    simp only [generate_signed_pre_key, hts]
    simp only [afterNativeGen, hcode, hw, intoResult_zero]
  · intro k hw
    simp only [generate_signed_pre_key, hts]
    simp only [afterNativeGen, hcode, hw, intoResult_zero]

/-- Claim C4 witness: at timestamp 0 with a native call that reports success
but writes null, the constructed error is returned; with one that writes a
handle, the prekey is returned. -/
theorem C4_generate_signed_pre_key_null_contract_witness :
    generate_signed_pre_key 0 (fun _ => ⟨0, none⟩) =
      .error (.message "Unable to generate a signed pre key")
    ∧ generate_signed_pre_key 0 (fun _ => ⟨0, some ⟨7⟩⟩) = .ok ⟨7⟩ :=
  ⟨((C4_generate_signed_pre_key_null_contract 0 (fun _ => ⟨0, none⟩)
      (by decide) rfl).1 rfl).1,
    (C4_generate_signed_pre_key_null_contract 0 (fun _ => ⟨0, some ⟨7⟩⟩)
      (by decide) rfl).2 ⟨7⟩ rfl⟩

/-- Claim C5: `Context::new_store_context` performs its five native steps in
order (creation, then the pre-key, signed-pre-key, session and identity-key
vtable registrations); the first step to report a non-zero code aborts
construction with that code's error and no `StoreContext` is returned; a
`StoreContext` is returned only when all five steps report success. -/
theorem C5_new_store_context_first_error (n : StoreCtxNative) :
    (n.createCode = 0 → n.preKeyCode = 0 → n.signedPreKeyCode = 0 →
      n.sessionCode = 0 → n.identityCode = 0 →
      new_store_context n = .ok n.createdHandle)
    ∧ (n.createCode ≠ 0 →
        new_store_context n = .error (errOf n.createCode))
    ∧ (n.createCode = 0 → n.preKeyCode ≠ 0 →
        new_store_context n = .error (errOf n.preKeyCode))
    ∧ (n.createCode = 0 → n.preKeyCode = 0 → n.signedPreKeyCode ≠ 0 →
        new_store_context n = .error (errOf n.signedPreKeyCode))
    ∧ (n.createCode = 0 → n.preKeyCode = 0 → n.signedPreKeyCode = 0 →
        n.sessionCode ≠ 0 →
        new_store_context n = .error (errOf n.sessionCode))
    ∧ (n.createCode = 0 → n.preKeyCode = 0 → n.signedPreKeyCode = 0 →
        n.sessionCode = 0 → n.identityCode ≠ 0 →
        new_store_context n = .error (errOf n.identityCode)) := by
  refine ⟨?_, ?_, ?_, ?_, ?_, ?_⟩
  · intro h0 h1 h2 h3 h4
    unfold new_store_context
    rw [h0, h1, h2, h3, h4]
    rfl
  · intro h0
    unfold new_store_context
    rw [intoResult_of_ne _ h0]
  · intro h0 h1
    unfold new_store_context
    rw [h0, intoResult_of_ne _ h1]
    rfl
  · intro h0 h1 h2
    unfold new_store_context
    rw [h0, h1, intoResult_of_ne _ h2]
    rfl
  · intro h0 h1 h2 h3
    unfold new_store_context
    rw [h0, h1, h2, intoResult_of_ne _ h3]
    rfl
  · intro h0 h1 h2 h3 h4
    unfold new_store_context
    rw [h0, h1, h2, h3, intoResult_of_ne _ h4]
    rfl

/-- Claim C5 witness: with the third step (signed-pre-key vtable
registration) failing with engine code `-3`, construction aborts with the
recognized no-memory internal error; with all five steps succeeding the
created handle is returned. -/
theorem C5_new_store_context_first_error_witness :
    new_store_context ⟨0, 0, -3, 0, 0, ⟨5⟩⟩ = .error (.internal .noMemory)
    ∧ new_store_context ⟨0, 0, 0, 0, 0, ⟨5⟩⟩ = .ok ⟨5⟩ := by
  constructor
  · have h := (C5_new_store_context_first_error ⟨0, 0, -3, 0, 0, ⟨5⟩⟩).2.2.2.1
      rfl rfl (by decide)
    rw [h]
    rfl
  · exact (C5_new_store_context_first_error ⟨0, 0, 0, 0, 0, ⟨5⟩⟩).1
      rfl rfl rfl rfl rfl

/-- Claim C6: the ordering the `Ord`/`PartialOrd`/`PartialEq` impls derive
from the native compare is a total order: `partial_cmp` is never `None`; the
result depends only on the two keys' content (so repeated comparisons agree);
the order is antisymmetric (`Equal` forces identical keys) and transitive;
and two equal-content keys compare `Equal` — with the same outcome —
whichever key is the receiver. -/
theorem C6_public_key_total_order (a b c : PublicKey) :
    (a.partialCmp b).isSome = true
    ∧ (∀ a2 b2 : PublicKey, a.content = a2.content → b.content = b2.content →
        a.cmp b = a2.cmp b2)
    ∧ (a.cmp b = .lt ↔ b.cmp a = .gt)
    ∧ (a.cmp b = .eq ↔ a = b)
    ∧ (a.cmp b = .lt → b.cmp c = .lt → a.cmp c = .lt)
    ∧ (a.cmp b = .eq → b.cmp c = .eq → a.cmp c = .eq)
    ∧ (a.content = b.content → a.cmp b = .eq ∧ b.cmp a = .eq ∧
        a.beq b = true ∧ b.beq a = true) := by
  have hiff : ∀ x y : PublicKey, x.cmp y = .eq ↔ x = y := by
    intro x y
    rw [PublicKey.cmp_eq_iff]
    unfold ec_public_key_compare
    rw [byteCompare_eq_zero_iff]
    constructor
    · intro h
      cases x
      cases y
      simpa using h
    · intro h
      rw [h]
  refine ⟨rfl, ?_, ?_, hiff a b, ?_, ?_, ?_⟩
  · intro a2 b2 ha hb
    unfold PublicKey.cmp ec_public_key_compare
    rw [ha, hb]
  · rw [PublicKey.cmp_lt_iff, PublicKey.cmp_gt_iff]
    unfold ec_public_key_compare
    rw [byteCompare_antisym b.content a.content]
    omega
  · rw [PublicKey.cmp_lt_iff, PublicKey.cmp_lt_iff, PublicKey.cmp_lt_iff]
    exact byteCompare_neg_trans a.content b.content c.content
  · intro hab hbc
    rw [hiff a b] at hab
    rw [hiff b c] at hbc
    rw [hiff a c, hab, hbc]
  · intro h
    have hab : a = b := by
      cases a
      cases b
      simpa using h
    subst hab
    have he : a.cmp a = .eq := (hiff a a).mpr rfl
    exact ⟨he, he, by simp only [PublicKey.beq, he]; rfl,
      by simp only [PublicKey.beq, he]; rfl⟩

/-- Claim C6 witness: on three concrete keys the comparison is defined,
consistent, antisymmetric and transitive. -/
theorem C6_public_key_total_order_witness :
    ((PublicKey.mk [1, 2]).partialCmp ⟨[1, 3]⟩).isSome = true
    ∧ ((PublicKey.mk [1, 2]).cmp ⟨[1, 3]⟩ = .lt ↔
        (PublicKey.mk [1, 3]).cmp ⟨[1, 2]⟩ = .gt)
    ∧ ((PublicKey.mk [1, 2]).cmp ⟨[1, 2]⟩ = .eq ↔
        (PublicKey.mk [1, 2]) = ⟨[1, 2]⟩)
    ∧ ((PublicKey.mk [1, 2]).cmp ⟨[1, 3]⟩ = .lt →
        (PublicKey.mk [1, 3]).cmp ⟨[2, 0]⟩ = .lt →
        (PublicKey.mk [1, 2]).cmp ⟨[2, 0]⟩ = .lt) :=
  ⟨(C6_public_key_total_order ⟨[1, 2]⟩ ⟨[1, 3]⟩ ⟨[2, 0]⟩).1,
    (C6_public_key_total_order ⟨[1, 2]⟩ ⟨[1, 3]⟩ ⟨[2, 0]⟩).2.2.1,
    (C6_public_key_total_order ⟨[1, 2]⟩ ⟨[1, 2]⟩ ⟨[2, 0]⟩).2.2.2.1,
    (C6_public_key_total_order ⟨[1, 2]⟩ ⟨[1, 3]⟩ ⟨[2, 0]⟩).2.2.2.2.1⟩

/-- Claim C7 counterexample: at one nanosecond before the Unix epoch,
`Context::generate_signed_pre_key` fails — but with the system-time
conversion error, which is not an internal-error kind, contrary to the
claim's "fails with an internal error". -/
theorem C7_pre_epoch_not_internal_counterexample :
    generate_signed_pre_key (-1) (fun _ => ⟨0, some ⟨1⟩⟩) =
      .error .systemTime
    ∧ SignalError.systemTime.isInternal = false :=
  ⟨rfl, rfl⟩

/-- Claim C7 (amended): a timestamp earlier than the Unix epoch makes the
operation fail with the timestamp-conversion error — an error outside the
internal-error taxonomy; otherwise the timestamp crosses the native boundary
as whole seconds since the epoch, with sub-second precision truncated (the
seconds value `s` satisfies `s * 10⁹ ≤ t < (s + 1) * 10⁹`), not rounded. -/
theorem C7_timestamp_truncation (t : Int)
    (native : Nat → NativeGenOutcome) :
    (t < 0 →
      generate_signed_pre_key t native = .error .systemTime
      ∧ SignalError.systemTime.isInternal = false)
    ∧ (0 ≤ t →
        generate_signed_pre_key t native =
          afterNativeGen (native (t.toNat / 1000000000))
        ∧ ((t.toNat / 1000000000) * 1000000000 : Int) ≤ t
        ∧ t < ((t.toNat / 1000000000 + 1) * 1000000000 : Int)) := by
  constructor
  · intro hneg
    refine ⟨?_, rfl⟩
    unfold generate_signed_pre_key timestampToSecs
    rw [if_pos hneg]
  · intro hpos
    have hts : timestampToSecs t = .ok (t.toNat / 1000000000) := by
      unfold timestampToSecs
      rw [if_neg (by omega)]
    refine ⟨by simp only [generate_signed_pre_key, hts], ?_, ?_⟩
    · have hd := Nat.div_add_mod t.toNat 1000000000
      have ht2 : (t.toNat : Int) = t := Int.toNat_of_nonneg hpos
      omega
    · have hd := Nat.div_add_mod t.toNat 1000000000
      have hm : t.toNat % 1000000000 < 1000000000 :=
        Nat.mod_lt _ (by norm_num)
      have ht2 : (t.toNat : Int) = t := Int.toNat_of_nonneg hpos
      omega

/-- Claim C7 witness: 1999999999 nanoseconds after the epoch crosses the
boundary as 1 whole second (truncated, not rounded to 2). -/
theorem C7_timestamp_truncation_witness :
    generate_signed_pre_key 1999999999 (fun _ => ⟨0, some ⟨1⟩⟩) =
      afterNativeGen ((fun _ => (⟨0, some ⟨1⟩⟩ : NativeGenOutcome))
        ((1999999999 : Int).toNat / 1000000000))
    ∧ (1999999999 : Int).toNat / 1000000000 = 1 :=
  ⟨((C7_timestamp_truncation 1999999999 (fun _ => ⟨0, some ⟨1⟩⟩)).2
      (by decide)).1,
    by decide⟩

/-- Claim C9: an `Address` built by `Address::new` from a string and a device
id round-trips its inputs: `bytes()` is exactly the string's bytes,
`as_str()` returns `Ok` of the same string (never a UTF-8 error), and
`device_id()` returns the device id. -/
theorem C9_address_roundtrip (s : RustStr) (d : Int) :
    (Address.new s d).bytes = s.val
    ∧ (Address.new s d).as_str = .ok s
    ∧ (Address.new s d).deviceId = d := by
  have hb : (Address.new s d).bytes = s.val := by
    simp [Address.new, Address.bytes]
  refine ⟨hb, ?_, rfl⟩
  unfold Address.as_str
  rw [hb]
  unfold str_from_utf8
  rw [dif_pos s.property]
  rfl

/-- Claim C9 witness: the address built from the two-byte string "hi" and
device id 7 round-trips all three accessors. -/
theorem C9_address_roundtrip_witness :
    (Address.new ⟨[104, 105], by decide⟩ 7).bytes = [104, 105]
    ∧ (Address.new ⟨[104, 105], by decide⟩ 7).as_str =
        .ok ⟨[104, 105], by decide⟩
    ∧ (Address.new ⟨[104, 105], by decide⟩ 7).deviceId = 7 :=
  C9_address_roundtrip ⟨[104, 105], by decide⟩ 7

/-- Claim C10: `SessionBuilder::new` never reports failure: for every integer
code the native create call returns, every pointer it writes and every pair
of context references, the same `SessionBuilder` struct is returned as for
success code `0` — the code is ignored and construction is unconditional. -/
theorem C10_session_builder_new_total (code : Int) (written : Option Nat)
    (storeCtx ctx : Nat) :
    SessionBuilder.new code written storeCtx ctx =
      SessionBuilder.new 0 written storeCtx ctx
    ∧ SessionBuilder.new code written storeCtx ctx =
        { raw := written, storeCtxRef := storeCtx, ctxRef := ctx } :=
  ⟨rfl, rfl⟩
